import Mathlib

/-!
Shallow embedding of the simulation core of the space-game repository
(src/utils.py, src/main.py), together with theorems settling the frozen
claims about it.

Modelling conventions:
* Python floats are embedded as rationals (ℚ); `float("inf")` appears only
  as a `Timer.max_time` and is embedded as `Option ℚ` with `none` standing
  for infinity.
* The friction coefficient `FRICTION_COEFF = (1 - 0.05) ** (1 / 60)` is an
  irrational real; the update functions are parameterized by an arbitrary
  rational coefficient `fc`, since no claim depends on its numeric value.
* Randomness (`random.uniform`, `random.choice`, `random.randint`,
  `random_unit_vector`) is embedded as an explicit oracle argument; claims
  about random draws constrain the oracle to the documented ranges.
* `pygame.Rect.collidepoint` (an external-library call used as a guard in
  `Game.toroidal_space`) is modelled by its documented contract: a point is
  inside the rectangle iff `left <= x < right` and `top <= y < bottom`
  (right/bottom edges excluded), with the game rectangle anchored at (0,0).
-/

namespace SpaceGame

/-! ## src/utils.py : Slider -/

structure Slider where
  max_value : ℚ
  current_value : ℚ
deriving DecidableEq, Repr

namespace Slider

/-- `Slider.__init__(max_value, current_value=None)`:
`current_value` defaults to `max_value`; no clamping is performed. -/
def init (max_value : ℚ) (current_value : Option ℚ) : Slider :=
  ⟨max_value, current_value.getD max_value⟩

/-- `Slider.is_alive`: `current_value > 0` (strict). -/
def is_alive (s : Slider) : Bool :=
  decide (0 < s.current_value)

/-- `Slider.get_value`. -/
def get_value (s : Slider) : ℚ :=
  s.current_value

/-- `Slider.get_percent_full`. -/
def get_percent_full (s : Slider) : ℚ :=
  s.current_value / s.max_value

/-- `Slider.set_percent_full(percent)`: sets `current_value` to
`max_value * percent`, with no clamping. -/
def set_percent_full (s : Slider) (percent : ℚ) : Slider :=
  { s with current_value := s.max_value * percent }

/-- `Slider.change(delta)`: adds `delta`, clamps with `min` against
`max_value` and then `max` against `0`, and returns the new slider together
with the actually applied delta. -/
def change (s : Slider) (delta : ℚ) : Slider × ℚ :=
  let c1 := s.current_value + delta
  let c2 := min c1 s.max_value
  let c3 := max c2 0
  ({ s with current_value := c3 }, c3 - s.current_value)

/-- The state a slider is in iff its current value lies in `[0, max_value]`. -/
def wellFormed (s : Slider) : Prop :=
  0 ≤ s.current_value ∧ s.current_value ≤ s.max_value

instance (s : Slider) : Decidable s.wellFormed := by
  unfold wellFormed; infer_instance

end Slider

/-! ## src/utils.py : Timer -/

structure Timer where
  max_time : Option ℚ
  current_time : ℚ
deriving DecidableEq, Repr

namespace Timer

/-- `Timer.__init__(max_time)`: `current_time` starts at 0. -/
def init (max_time : Option ℚ) : Timer :=
  ⟨max_time, 0⟩

/-- `Timer.tick(time_delta)`. -/
def tick (t : Timer) (dt : ℚ) : Timer :=
  { t with current_time := t.current_time + dt }

/-- `Timer.running`: `current_time < max_time`; always true against the
infinite max time. -/
def running (t : Timer) : Bool :=
  match t.max_time with
  | none => true
  | some m => decide (t.current_time < m)

/-- `Timer.reset(with_max_time=None)`: optionally rearms `max_time`, zeroes
`current_time`. -/
def reset (t : Timer) (with_max_time : Option ℚ) : Timer :=
  ⟨match with_max_time with
    | some m => some m
    | none => t.max_time,
   0⟩

end Timer

/-! ## pygame.Vector2, embedded as a pair of rationals -/

structure Vec2 where
  x : ℚ
  y : ℚ
deriving DecidableEq, Repr

namespace Vec2

def add (a b : Vec2) : Vec2 :=
  ⟨a.x + b.x, a.y + b.y⟩

def smul (c : ℚ) (v : Vec2) : Vec2 :=
  ⟨c * v.x, c * v.y⟩

/-- `Vector2.distance_squared_to`. -/
def distance_squared_to (a b : Vec2) : ℚ :=
  (a.x - b.x) ^ 2 + (a.y - b.y) ^ 2

def zero : Vec2 :=
  ⟨0, 0⟩

end Vec2

/-! ## src/main.py : constants -/

def FRICTION_PER_SECOND : ℚ := 5 / 100

def PLAYER_SIZE : ℚ := 12

def PLAYER_ACC_AMPLITUDE : ℚ := 500

def FUEL_CONSUMPTION_PER_SECOND : ℚ := 2 / 10

def OXIDIZER_CONSUMPTION_PER_SECOND : ℚ := 15 / 100

/-! ## src/main.py : Entity

`Entity` is an abstract base class; its `update` body is inherited by
`Booster` (via `super().update`) while `Player` overrides it.  The friction
coefficient `(1 - 0.05) ** (1 / 60)` is irrational, so the integration
functions take it as a parameter `fc`. -/

structure Entity where
  pos : Vec2
  vel : Vec2
  size : ℚ
  acc : Vec2
  lifetime_timer : Timer
  _alive : Bool
deriving DecidableEq, Repr

namespace Entity

/-- `Entity.__init__(pos, vel, size, acc=None, lifetime=inf)`. -/
def init (pos vel : Vec2) (size : ℚ) (acc : Option Vec2)
    (lifetime : Option ℚ) : Entity :=
  ⟨pos, vel, size, acc.getD Vec2.zero, Timer.init lifetime, true⟩

/-- `Entity.is_alive`: `_alive and lifetime_timer.running()`. -/
def is_alive (e : Entity) : Bool :=
  e._alive && e.lifetime_timer.running

/-- `Entity.kill`. -/
def kill (e : Entity) : Entity :=
  { e with _alive := false }

/-- `Entity.collides_with(other)`: strict squared-distance test. -/
def collides_with (e other : Entity) : Bool :=
  decide (e.pos.distance_squared_to other.pos < (e.size + other.size) ^ 2)

/-- The body of abstract `Entity.update`:
`pos += vel*dt; vel += acc*dt; vel *= FRICTION_COEFF;
lifetime_timer.tick(dt)`. -/
def update_base (fc : ℚ) (e : Entity) (dt : ℚ) : Entity :=
  { e with
    pos := e.pos.add (Vec2.smul dt e.vel)
    vel := Vec2.smul fc (e.vel.add (Vec2.smul dt e.acc))
    lifetime_timer := e.lifetime_timer.tick dt }

end Entity

/-! ## src/main.py : Engine -/

structure Engine where
  _on : Bool
  _speedup : Bool
  _fuel : Slider
  _oxidizer : Slider
deriving DecidableEq, Repr

namespace Engine

/-- The dataclass field defaults of `Engine`:
`_on=False, _speedup=False, _fuel=Slider(1.0, 0.5), _oxidizer=Slider(1.0, 0.5)`.
(As a value; the reference-sharing of the two default `Slider` objects across
instances is modelled separately below, in the heap model.) -/
def default : Engine :=
  ⟨false, false, Slider.init 1 (some (1 / 2)), Slider.init 1 (some (1 / 2))⟩

/-- `Engine.has_propellants`: `_fuel.is_alive() and _oxidizer.is_alive()`. -/
def has_propellants (e : Engine) : Bool :=
  e._fuel.is_alive && e._oxidizer.is_alive

/-- `Engine.get`: the thrust level. -/
def get (e : Engine) : ℕ :=
  if ¬(e._on && e.has_propellants) then 0
  else if e._speedup then 8 else 2

/-- `Engine.on`. -/
def turn_on (e : Engine) : Engine :=
  { e with _on := true }

/-- `Engine.off`. -/
def turn_off (e : Engine) : Engine :=
  { e with _on := false }

/-- `Engine.is_speedup_active`. -/
def is_speedup_active (e : Engine) : Bool :=
  e._on && e._speedup

/-- `Engine.set_speedup(speedup)`. -/
def set_speedup (e : Engine) (speedup : Bool) : Engine :=
  { e with _speedup := speedup }

/-- `Engine.update(time_delta)`: propellant consumption. -/
def update (e : Engine) (dt : ℚ) : Engine :=
  if ¬e.has_propellants then e
  else if e.is_speedup_active then
    { e with
      _fuel := (e._fuel.change (-(FUEL_CONSUMPTION_PER_SECOND * dt))).1
      _oxidizer := (e._oxidizer.change (-(OXIDIZER_CONSUMPTION_PER_SECOND * dt))).1 }
  else if e._on then
    { e with
      _fuel := (e._fuel.change (-(1 / 10 * FUEL_CONSUMPTION_PER_SECOND * dt))).1
      _oxidizer :=
        (e._oxidizer.change (-(1 / 10 * OXIDIZER_CONSUMPTION_PER_SECOND * dt))).1 }
  else e

end Engine

/-! ## src/main.py : Player -/

structure Player where
  entity : Entity
  engine : Engine
deriving DecidableEq, Repr

namespace Player

/-- `Player.__init__(pos, vel, acc)`: size `PLAYER_SIZE`, infinite lifetime,
a fresh default engine.  (Value-level view; the sharing of the dataclass
default sliders is modelled in the heap model below.) -/
def init (pos vel acc : Vec2) : Player :=
  ⟨Entity.init pos vel PLAYER_SIZE (some acc) none, Engine.default⟩

def is_alive (p : Player) : Bool :=
  p.entity.is_alive

/-- `Player.update(time_delta)`, statement for statement:
`pos += vel*dt`; `vel += engine.get() * acc * dt`; `vel *= FRICTION_COEFF`;
`engine.update(dt)`; `lifetime_timer.tick(dt)`. -/
def update (fc : ℚ) (p : Player) (dt : ℚ) : Player :=
  let pos1 := p.entity.pos.add (Vec2.smul dt p.entity.vel)
  let vel1 := p.entity.vel.add
    (Vec2.smul dt (Vec2.smul (p.engine.get : ℚ) p.entity.acc))
  let vel2 := Vec2.smul fc vel1
  { entity :=
      { p.entity with
        pos := pos1
        vel := vel2
        lifetime_timer := p.entity.lifetime_timer.tick dt }
    engine := p.engine.update dt }

end Player

/-! ## src/main.py : Booster -/

inductive BoosterType where
  | FUEL
  | OXIDIZER
deriving DecidableEq, Repr

structure Booster where
  entity : Entity
  booster_type : BoosterType
  amount : ℚ
deriving DecidableEq, Repr

namespace Booster

/-- `Booster.__init__(pos, booster_type, amount)`: zero velocity and
acceleration, size 10, lifetime 10 s. -/
def init (pos : Vec2) (booster_type : BoosterType) (amount : ℚ) : Booster :=
  ⟨Entity.init pos Vec2.zero 10 (some Vec2.zero) (some 10), booster_type, amount⟩

def is_alive (b : Booster) : Bool :=
  b.entity.is_alive

/-- `Booster.update` = `super().update` = the abstract `Entity.update` body. -/
def update (fc : ℚ) (b : Booster) (dt : ℚ) : Booster :=
  { b with entity := Entity.update_base fc b.entity dt }

end Booster

/-! ## src/main.py : Game

Randomness is supplied by an explicit oracle.  `random_unit_vector()` (the
direction of the initial acceleration, and the result of rotating the
acceleration by a random angle in the AI controller) involves trigonometric
functions of a random angle, so the oracle supplies the resulting vector
directly. -/

inductive ControlType where
  | scroll
  | cursor
  | ai
deriving DecidableEq, Repr

/-- One tick's worth of random draws. -/
structure Oracle where
  /-- `get_random_screen_pos(surface_rect)` for a spawned booster. -/
  spawnPos : Vec2
  /-- `random.choice(list(BoosterType))`. -/
  spawnType : BoosterType
  /-- `random.uniform(0.1, 0.4)`. -/
  spawnAmount : ℚ
  /-- `random.uniform(2, 7)`: fresh spawn-timer period. -/
  spawnPeriod : ℚ
  /-- acceleration after `rotate_acc(random.uniform(-1, 1) * 20)` in the AI
  controller. -/
  aiAcc : Vec2
  /-- the coin for `engine.on() if random.random() < 0.5 else engine.off()`. -/
  aiOn : Bool
  /-- the coin for `set_speedup(random.random() < 0.5)`. -/
  aiSpeedup : Bool
deriving DecidableEq, Repr

structure Game where
  time : ℚ
  /-- `surface_rect` width; the rectangle is anchored at (0, 0). -/
  width : ℕ
  /-- `surface_rect` height. -/
  height : ℕ
  /-- `maxtime` defaults to `float("inf")`, embedded as `none`. -/
  maxtime : Option ℚ
  control_type : ControlType
  player : Player
  e_boosters : List Booster
  clean_dead_entities_timer : Timer
  spawn_booster_timer : Timer
deriving DecidableEq, Repr

namespace Game

/-- `Game.__init__(surface_rect, maxtime=inf, control_type="cursor")`.
`acc0` is the oracle-supplied `random_unit_vector()`; the player starts at
the rect center (integer halves, as `pygame.Rect.center`). -/
def init (W H : ℕ) (maxtime : Option ℚ) (control_type : ControlType)
    (acc0 : Vec2) : Game :=
  { time := 0
    width := W
    height := H
    maxtime := maxtime
    control_type := control_type
    player := Player.init ⟨(W / 2 : ℕ), (H / 2 : ℕ)⟩ Vec2.zero
      (Vec2.smul PLAYER_ACC_AMPLITUDE acc0)
    e_boosters := []
    clean_dead_entities_timer := Timer.init (some 1)
    spawn_booster_timer := Timer.init (some 1) }

/-- `Game.boosters`: the live boosters. -/
def boosters (g : Game) : List Booster :=
  g.e_boosters.filter fun b => b.is_alive

/-- `Game.clean_dead_entities`. -/
def clean_dead_entities (g : Game) : Game :=
  { g with e_boosters := g.boosters }

/-- The transfer applied when a live booster collides with the player:
`change(amount)` on the gauge matching the booster's type. -/
def applyTransfer (p : Player) (b : Booster) : Player :=
  match b.booster_type with
  | BoosterType.FUEL =>
      { p with engine :=
          { p.engine with _fuel := (p.engine._fuel.change b.amount).1 } }
  | BoosterType.OXIDIZER =>
      { p with engine :=
          { p.engine with _oxidizer := (p.engine._oxidizer.change b.amount).1 } }

/-- The loop body of `Game.process_collisions`: iterate over the boosters in
list order (the `boosters()` generator filters on `is_alive` lazily, at the
moment each element is reached), transferring into the player and killing
each qualifying booster in place. -/
def collideLoop (p : Player) : List Booster → Player × List Booster
  | [] => (p, [])
  | b :: rest =>
      if b.is_alive && b.entity.collides_with p.entity then
        let res := collideLoop (applyTransfer p b) rest
        (res.1, { b with entity := b.entity.kill } :: res.2)
      else
        let res := collideLoop p rest
        (res.1, b :: res.2)

/-- `Game.process_collisions`. -/
def process_collisions (g : Game) : Game :=
  let res := collideLoop g.player g.e_boosters
  { g with player := res.1, e_boosters := res.2 }

/-- `pygame.Rect.collidepoint`, by its documented contract (right and bottom
edges excluded), for the game rectangle anchored at (0, 0). -/
def collidepoint (W H : ℕ) (p : Vec2) : Bool :=
  decide (0 ≤ p.x) && decide (p.x < (W : ℚ)) &&
    (decide (0 ≤ p.y) && decide (p.y < (H : ℚ)))

/-- `Game.toroidal_space`. -/
def toroidal_space (g : Game) : Game :=
  if collidepoint g.width g.height g.player.entity.pos then g
  else
    let p := g.player.entity.pos
    let x1 := if p.x < 0 then (g.width : ℚ)
      else if p.x > (g.width : ℚ) then 0 else p.x
    let y1 := if p.y < 0 then (g.height : ℚ)
      else if p.y > (g.height : ℚ) then 0 else p.y
    { g with player :=
        { g.player with entity := { g.player.entity with pos := ⟨x1, y1⟩ } } }

/-- `Game.process_timers(time_delta)`. -/
def process_timers (o : Oracle) (g : Game) (dt : ℚ) : Game :=
  let ct := g.clean_dead_entities_timer.tick dt
  let g1 :=
    if ¬ct.running then
      { g with
        e_boosters := g.e_boosters.filter fun b => b.is_alive
        clean_dead_entities_timer := ct.reset none }
    else { g with clean_dead_entities_timer := ct }
  let st := g1.spawn_booster_timer.tick dt
  if ¬st.running then
    { g1 with
      e_boosters := g1.e_boosters ++ [Booster.init o.spawnPos o.spawnType o.spawnAmount]
      spawn_booster_timer := st.reset (some o.spawnPeriod) }
  else { g1 with spawn_booster_timer := st }

/-- `control_player_random_action(player, game)`: rotate the acceleration by
a random angle (oracle-supplied result), toss a coin for `on()`/`off()`, and
if the engine is truthy (`_on`) set speedup from a second coin. -/
def ai_action (o : Oracle) (p : Player) : Player :=
  let p1 := { p with entity := { p.entity with acc := o.aiAcc } }
  let p2 := { p1 with engine :=
    if o.aiOn then p1.engine.turn_on else p1.engine.turn_off }
  if p2.engine._on then
    { p2 with engine := p2.engine.set_speedup o.aiSpeedup }
  else p2

/-- `Game.is_running`: `player.is_alive() and time < maxtime`. -/
def is_running (g : Game) : Bool :=
  g.player.is_alive &&
    (match g.maxtime with
     | none => true
     | some m => decide (g.time < m))

/-- The trailing hook of `Game.update`:
`if self.control_type == "ai": control_player_random_action(self.player, self)`. -/
def maybe_ai (g : Game) (o : Oracle) : Game :=
  match g.control_type with
  | ControlType.ai => { g with player := ai_action o g.player }
  | _ => g

/-- `Game.update(time_delta)`. -/
def update (fc : ℚ) (o : Oracle) (g : Game) (dt : ℚ) : Game :=
  if ¬g.is_running then g
  else
    let g1 := { g with time := g.time + dt }
    let g2 := { g1 with player := g1.player.update fc dt }
    let g3 := g2.toroidal_space
    let g4 := g3.process_collisions
    let g5 := g4.process_timers o dt
    g5.maybe_ai o

end Game

/-! ## Spec-side description of the player tick (refinement target for the
integration-order claim) -/

/-- The per-tick player pipeline as the spec words it (§4.3): position from
the old velocity; velocity from the thrust level read before any propellant
is consumed this tick; then the friction multiply; then the engine consumes
propellant and the lifetime timer ticks — the timer regardless of alive
state, which is untouched. -/
def Player.updateSpecModel (fc : ℚ) (p : Player) (dt : ℚ) : Player :=
  { entity :=
      { pos := p.entity.pos.add (Vec2.smul dt p.entity.vel)
        vel := Vec2.smul fc (p.entity.vel.add
          (Vec2.smul dt (Vec2.smul (p.engine.get : ℚ) p.entity.acc)))
        size := p.entity.size
        acc := p.entity.acc
        lifetime_timer := p.entity.lifetime_timer.tick dt
        _alive := p.entity._alive }
    engine := p.engine.update dt }

/-! ## Inbound control events and reachable world states -/

/-- The discrete inbound control calls (spec §6): engine on/off, speedup,
and the acceleration-direction updates (scroll rotation and cursor aim,
whose trigonometric outcome is supplied as the resulting vector). -/
inductive Control where
  | engineOn
  | engineOff
  | setSpeedup (b : Bool)
  | setAcc (a : Vec2)
deriving DecidableEq, Repr

def applyControl : Control → Game → Game
  | Control.engineOn, g =>
      { g with player := { g.player with engine := g.player.engine.turn_on } }
  | Control.engineOff, g =>
      { g with player := { g.player with engine := g.player.engine.turn_off } }
  | Control.setSpeedup b, g =>
      { g with player := { g.player with engine := g.player.engine.set_speedup b } }
  | Control.setAcc a, g =>
      { g with player :=
          { g.player with entity := { g.player.entity with acc := a } } }

/-- The documented ranges of the random draws consumed by one tick:
`random.uniform(2, 7)` for the fresh spawn period, `random.uniform(0.1, 0.4)`
for the spawned amount. -/
def Oracle.valid (o : Oracle) : Prop :=
  2 ≤ o.spawnPeriod ∧ o.spawnPeriod ≤ 7 ∧
    1 / 10 ≤ o.spawnAmount ∧ o.spawnAmount ≤ 4 / 10

/-- The world states reachable through the public interface: construction,
ticks with in-range random draws, and inbound control calls. -/
inductive Reachable (fc : ℚ) : Game → Prop
  | init (W H : ℕ) (maxtime : Option ℚ) (ct : ControlType) (acc0 : Vec2) :
      Reachable fc (Game.init W H maxtime ct acc0)
  | step (g : Game) (o : Oracle) (dt : ℚ) :
      Reachable fc g → o.valid → 0 ≤ dt → Reachable fc (Game.update fc o g dt)
  | ctrl (g : Game) (c : Control) :
      Reachable fc g → Reachable fc (applyControl c g)

/-! ## Reference-level model of the `Engine` dataclass defaults

In Python, `@dataclass class Engine: ... _fuel: Slider = Slider(1.0, 0.5)`
builds the default `Slider` objects once, when the class statement executes;
every `Engine()` constructed without explicit arguments then stores
references to those same two objects.  The heap maps slider references to
slider states. -/

structure SliderHeap where
  sliders : List Slider
deriving DecidableEq, Repr

structure EngineObj where
  _on : Bool
  _speedup : Bool
  fuelRef : ℕ
  oxidizerRef : ℕ
deriving DecidableEq, Repr

namespace SliderHeap

def read (h : SliderHeap) (r : ℕ) : Slider :=
  h.sliders.getD r (Slider.init 0 none)

def write (h : SliderHeap) (r : ℕ) (s : Slider) : SliderHeap :=
  ⟨h.sliders.set r s⟩

end SliderHeap

/-- The heap right after the `Engine` class statement executes: the two
default sliders `Slider(1.0, 0.5)`, at references 0 and 1. -/
def engineClassHeap : SliderHeap :=
  ⟨[Slider.init 1 (some (1 / 2)), Slider.init 1 (some (1 / 2))]⟩

/-- `Engine()` with default arguments: a fresh engine object whose gauge
fields are references to the class-level default sliders.  No new sliders
are allocated, so every such engine yields this same object shape. -/
def engineDefaultObj : EngineObj :=
  ⟨false, false, 0, 1⟩

/-- `engine._fuel.change(delta)` at the reference level. -/
def engineFuelChange (h : SliderHeap) (e : EngineObj) (δ : ℚ) :
    SliderHeap × ℚ :=
  let res := (h.read e.fuelRef).change δ
  (h.write e.fuelRef res.1, res.2)

/-- `engine._fuel.get_value()` at the reference level. -/
def engineFuelValue (h : SliderHeap) (e : EngineObj) : ℚ :=
  (h.read e.fuelRef).get_value

/-- `engine._oxidizer.get_value()` at the reference level. -/
def engineOxidizerValue (h : SliderHeap) (e : EngineObj) : ℚ :=
  (h.read e.oxidizerRef).get_value

/-! ## Concrete sample values used by the witnesses -/

def sampleOracle : Oracle :=
  ⟨⟨100, 100⟩, BoosterType.FUEL, 1 / 4, 3, ⟨1, 0⟩, false, false⟩

def sampleGame : Game :=
  Game.init 800 600 none ControlType.cursor ⟨1, 0⟩

/-- A world with the player at (400, 300), fuel gauge at 0.8/1.0, and one
live FUEL booster of amount 0.3 sitting on the player. -/
def sampleCollisionGame : Game :=
  { time := 0
    width := 800
    height := 600
    maxtime := none
    control_type := ControlType.cursor
    player := ⟨⟨⟨400, 300⟩, Vec2.zero, 12, ⟨500, 0⟩, Timer.init none, true⟩,
      ⟨false, false, Slider.init 1 (some (8 / 10)), Slider.init 1 (some (1 / 2))⟩⟩
    e_boosters := [Booster.init ⟨400, 300⟩ BoosterType.FUEL (3 / 10)]
    clean_dead_entities_timer := Timer.init (some 1)
    spawn_booster_timer := Timer.init (some 1) }

/-! ## Helper lemmas -/

lemma Slider.change_fst_current (s : Slider) (δ : ℚ) :
    (s.change δ).1.current_value =
      max (min (s.current_value + δ) s.max_value) 0 :=
  rfl

lemma Slider.change_fst_max (s : Slider) (δ : ℚ) :
    (s.change δ).1.max_value = s.max_value :=
  rfl

lemma Slider.change_range (s : Slider) (δ : ℚ) (hM : 0 ≤ s.max_value) :
    0 ≤ (s.change δ).1.current_value ∧
      (s.change δ).1.current_value ≤ (s.change δ).1.max_value := by
  rw [Slider.change_fst_current, Slider.change_fst_max]
  exact ⟨le_max_right _ _, max_le (min_le_right _ _) hM⟩

lemma Slider.change_self_drain (s : Slider) :
    (s.change (-(s.get_value))).1.current_value = 0 := by
  rw [Slider.change_fst_current]
  have h : s.current_value + -(s.get_value) = 0 := by
    simp [Slider.get_value]
  rw [h]
  exact max_eq_right (min_le_left 0 s.max_value)

/-! ## Claims -/

/-- **C2.** For every slider whose current value is in `[0, max_value]`,
`change(delta)` sets the current value to `clamp(current + delta, 0, max)`,
returns exactly the difference between the new and old current values, and
leaves `max_value` unchanged; consequently any sequence of `change` calls
from an in-range state keeps `0 ≤ current_value ≤ max_value`. -/
theorem claim_C2_change_contract :
    (∀ (s : Slider) (δ : ℚ),
      0 ≤ s.current_value → s.current_value ≤ s.max_value →
      (s.change δ).1.current_value =
        min (max (s.current_value + δ) 0) s.max_value ∧
      (s.change δ).2 = (s.change δ).1.current_value - s.current_value ∧
      (s.change δ).1.max_value = s.max_value ∧
      0 ≤ (s.change δ).1.current_value ∧
      (s.change δ).1.current_value ≤ s.max_value) ∧
    (∀ (ds : List ℚ) (s : Slider),
      0 ≤ s.current_value → s.current_value ≤ s.max_value →
      0 ≤ (ds.foldl (fun t d => (t.change d).1) s).current_value ∧
      (ds.foldl (fun t d => (t.change d).1) s).current_value ≤
        (ds.foldl (fun t d => (t.change d).1) s).max_value) := by
  constructor
  · intro s δ h0 hM
    have hM0 : (0 : ℚ) ≤ s.max_value := le_trans h0 hM
    refine ⟨?_, rfl, rfl, ?_, ?_⟩
    · rw [Slider.change_fst_current]
      simp only [min_def, max_def]
      split_ifs <;> linarith
    · rw [Slider.change_fst_current]
      exact le_max_right _ _
    · rw [Slider.change_fst_current]
      exact max_le (min_le_right _ _) hM0
  · intro ds
    induction ds with
    | nil => intro s h0 hM; exact ⟨h0, hM⟩
    | cons d tl ih =>
        intro s h0 hM
        have hM0 : (0 : ℚ) ≤ s.max_value := le_trans h0 hM
        have h := Slider.change_range s d hM0
        have hrec := ih (s.change d).1 h.1
          (by rw [Slider.change_fst_max]; exact le_trans h.2 (le_of_eq (Slider.change_fst_max s d)))
        simpa [List.foldl] using hrec

/-- Witness for C2 at a concrete slider and delta sequence. -/
theorem claim_C2_change_contract_witness :
    ((Slider.init 1 (some (1 / 2))).change (3 / 4)).1.current_value =
      min (max ((Slider.init 1 (some (1 / 2))).current_value + 3 / 4) 0)
        (Slider.init 1 (some (1 / 2))).max_value ∧
    0 ≤ (([(3 : ℚ) / 4, -2].foldl (fun t d => (t.change d).1)
      (Slider.init 1 (some (1 / 2)))).current_value) :=
  ⟨(claim_C2_change_contract.1 (Slider.init 1 (some (1 / 2))) (3 / 4)
      (by norm_num [Slider.init]) (by norm_num [Slider.init])).1,
   (claim_C2_change_contract.2 [3 / 4, -2] (Slider.init 1 (some (1 / 2)))
      (by norm_num [Slider.init]) (by norm_num [Slider.init])).1⟩

/-- **C6 counterexample.** Construction through the public interface with an
explicit current value can produce an ill-formed slider: `Slider(1.0, 5.0)`
has `current_value = 5 > max_value = 1`. -/
theorem claim_C6_counterexample :
    ¬(Slider.init 1 (some 5)).wellFormed := by
  decide

/-- **C6 (amended).** Construction without an explicit current value (for a
non-negative max) is well-formed, and `change()` always re-establishes
well-formedness on any slider with non-negative max; but construction with
an explicit current value (and `set_percent_full`) can leave the range. -/
theorem claim_C6_wellformed :
    (∀ M : ℚ, 0 ≤ M → (Slider.init M none).wellFormed) ∧
    (∀ (s : Slider) (δ : ℚ), 0 ≤ s.max_value → ((s.change δ).1).wellFormed) := by
  constructor
  · intro M hM
    exact ⟨hM, le_rfl⟩
  · intro s δ hM
    have h := Slider.change_range s δ hM
    exact ⟨h.1, h.2⟩

/-- Witness for C6 (amended) at concrete sliders. -/
theorem claim_C6_wellformed_witness :
    (Slider.init 2 none).wellFormed ∧
      ((Slider.init 1 (some 5)).change (-10)).1.wellFormed :=
  ⟨claim_C6_wellformed.1 2 (by norm_num),
   claim_C6_wellformed.2 (Slider.init 1 (some 5)) (-10) (by decide)⟩

/-- **C3.** The thrust level is 0 whenever the engine is off or either gauge
is not strictly positive; otherwise it is 8 with speedup and 2 without.
Draining the fuel gauge to exactly 0 via `change(-fuel.get_value())` makes
`has_propellants()` false and the thrust level 0 even with `on` and
`speedup` both true. -/
theorem claim_C3_thrust_level :
    (∀ e : Engine, e._on = false → e.get = 0) ∧
    (∀ e : Engine, e.has_propellants = false → e.get = 0) ∧
    (∀ e : Engine, e.has_propellants = true ↔
      (0 < e._fuel.current_value ∧ 0 < e._oxidizer.current_value)) ∧
    (∀ e : Engine, e._on = true → e.has_propellants = true →
      e.get = if e._speedup then 8 else 2) ∧
    (∀ e : Engine,
      ({ e with _on := true
                _speedup := true
                _fuel := (e._fuel.change (-(e._fuel.get_value))).1 }
         : Engine).has_propellants = false ∧
      ({ e with _on := true
                _speedup := true
                _fuel := (e._fuel.change (-(e._fuel.get_value))).1 }
         : Engine).get = 0) := by
  refine ⟨?_, ?_, ?_, ?_, ?_⟩
  · intro e h
    simp [Engine.get, h]
  · intro e h
    simp [Engine.get, h]
  · intro e
    simp [Engine.has_propellants, Slider.is_alive, Bool.and_eq_true,
      decide_eq_true_iff]
  · intro e h1 h2
    simp [Engine.get, h1, h2]
  · intro e
    have hdrain : ((e._fuel.change (-(e._fuel.get_value))).1).current_value = 0 :=
      Slider.change_self_drain e._fuel
    have hprop : ({ e with _on := true
                           _speedup := true
                           _fuel := (e._fuel.change (-(e._fuel.get_value))).1 }
        : Engine).has_propellants = false := by
      simp [Engine.has_propellants, Slider.is_alive, hdrain]
    exact ⟨hprop, by simp [Engine.get, hprop]⟩

/-- Witness for C3 at concrete engines. -/
theorem claim_C3_thrust_level_witness :
    Engine.get ⟨false, true, Slider.init 1 none, Slider.init 1 none⟩ = 0 ∧
    Engine.get ⟨true, true, Slider.init 1 none, Slider.init 1 none⟩ =
      (if true then 8 else 2) ∧
    Engine.get ⟨true, true,
      ((Slider.init 1 none).change (-((Slider.init 1 none).get_value))).1,
      Slider.init 1 none⟩ = 0 :=
  ⟨claim_C3_thrust_level.1 _ rfl,
   claim_C3_thrust_level.2.2.2.1 _ rfl (by decide),
   (claim_C3_thrust_level.2.2.2.2
     ⟨true, false, Slider.init 1 none, Slider.init 1 none⟩).2⟩

/-- **C7.** `Engine.update(dt)` changes nothing when a propellant is empty
or the engine is off; when on with speedup it applies
`change(-(0.2*dt))` to fuel and `change(-(0.15*dt))` to oxidizer; when on
without speedup it drains both at 10% of those rates. -/
theorem claim_C7_engine_update :
    (∀ (e : Engine) (dt : ℚ), e.has_propellants = false → e.update dt = e) ∧
    (∀ (e : Engine) (dt : ℚ), e._on = false → e.update dt = e) ∧
    (∀ (e : Engine) (dt : ℚ), e.has_propellants = true → e._on = true →
      e._speedup = true →
      e.update dt = { e with
        _fuel := (e._fuel.change (-(2 / 10 * dt))).1
        _oxidizer := (e._oxidizer.change (-(15 / 100 * dt))).1 }) ∧
    (∀ (e : Engine) (dt : ℚ), e.has_propellants = true → e._on = true →
      e._speedup = false →
      e.update dt = { e with
        _fuel := (e._fuel.change (-(1 / 10 * (2 / 10) * dt))).1
        _oxidizer := (e._oxidizer.change (-(1 / 10 * (15 / 100) * dt))).1 }) := by
  refine ⟨?_, ?_, ?_, ?_⟩
  · intro e dt h
    simp [Engine.update, h]
  · intro e dt h
    by_cases hp : e.has_propellants
    · simp [Engine.update, Engine.is_speedup_active, h, hp]
    · simp [Engine.update, hp]
  · intro e dt h1 h2 h3
    simp [Engine.update, Engine.is_speedup_active, h1, h2, h3,
      FUEL_CONSUMPTION_PER_SECOND, OXIDIZER_CONSUMPTION_PER_SECOND]
  · intro e dt h1 h2 h3
    simp [Engine.update, Engine.is_speedup_active, h1, h2, h3,
      FUEL_CONSUMPTION_PER_SECOND, OXIDIZER_CONSUMPTION_PER_SECOND]

/-- Witness for C7 at a concrete engine and tick. -/
theorem claim_C7_engine_update_witness :
    Engine.update ⟨true, true, Slider.init 1 none, Slider.init 1 none⟩ 2 =
      { (⟨true, true, Slider.init 1 none, Slider.init 1 none⟩ : Engine) with
        _fuel := ((Slider.init 1 none).change (-(2 / 10 * 2))).1
        _oxidizer := ((Slider.init 1 none).change (-(15 / 100 * 2))).1 } :=
  claim_C7_engine_update.2.2.1 _ 2 (by decide) rfl rfl

/-- **C8.** `Player.update(dt)` is exactly the spec pipeline, in order:
position from the old velocity; velocity from the thrust level read before
any propellant is consumed this tick; the friction multiply; then the
engine consumes propellant and the lifetime timer ticks — the timer on
every update, with the alive flag untouched. -/
theorem claim_C8_player_update_order :
    (∀ (fc : ℚ) (p : Player) (dt : ℚ),
      Player.update fc p dt = Player.updateSpecModel fc p dt) ∧
    (∀ (fc : ℚ) (p : Player) (dt : ℚ),
      (Player.update fc p dt).entity.lifetime_timer =
        p.entity.lifetime_timer.tick dt ∧
      (Player.update fc p dt).entity._alive = p.entity._alive ∧
      (Player.update fc p dt).engine = p.engine.update dt ∧
      (Player.update fc p dt).entity.pos =
        p.entity.pos.add (Vec2.smul dt p.entity.vel) ∧
      (Player.update fc p dt).entity.vel =
        Vec2.smul fc (p.entity.vel.add
          (Vec2.smul dt (Vec2.smul (p.engine.get : ℚ) p.entity.acc)))) := by
  constructor
  · intro fc p dt
    rfl
  · intro fc p dt
    exact ⟨rfl, rfl, rfl, rfl, rfl⟩

/-- **C9.** The world wraps each axis of the player position independently:
x < 0 becomes W, x > W becomes 0, otherwise x is kept, and likewise for y;
in particular x = W + ε wraps to 0, x = -ε wraps to W, and a position inside
the rectangle (including its edges) is unchanged. -/
theorem claim_C9_toroidal_wrap :
    (∀ g : Game,
      g.toroidal_space = { g with player :=
        { g.player with entity := { g.player.entity with pos :=
          ⟨if g.player.entity.pos.x < 0 then (g.width : ℚ)
            else if g.player.entity.pos.x > (g.width : ℚ) then 0
            else g.player.entity.pos.x,
           if g.player.entity.pos.y < 0 then (g.height : ℚ)
            else if g.player.entity.pos.y > (g.height : ℚ) then 0
            else g.player.entity.pos.y⟩ } } }) ∧
    (∀ (g : Game) (ε : ℚ), 0 < ε →
      g.player.entity.pos.x = (g.width : ℚ) + ε →
      (g.toroidal_space).player.entity.pos.x = 0) ∧
    (∀ (g : Game) (ε : ℚ), 0 < ε →
      g.player.entity.pos.x = -ε →
      (g.toroidal_space).player.entity.pos.x = (g.width : ℚ)) := by
  have hmain : ∀ g : Game,
      g.toroidal_space = { g with player :=
        { g.player with entity := { g.player.entity with pos :=
          ⟨if g.player.entity.pos.x < 0 then (g.width : ℚ)
            else if g.player.entity.pos.x > (g.width : ℚ) then 0
            else g.player.entity.pos.x,
           if g.player.entity.pos.y < 0 then (g.height : ℚ)
            else if g.player.entity.pos.y > (g.height : ℚ) then 0
            else g.player.entity.pos.y⟩ } } } := by
    intro g
    unfold Game.toroidal_space
    by_cases h : Game.collidepoint g.width g.height g.player.entity.pos
    · rw [if_pos h]
      unfold Game.collidepoint at h
      simp only [Bool.and_eq_true, decide_eq_true_eq] at h
      obtain ⟨⟨hx0, hxW⟩, hy0, hyH⟩ := h
      rw [if_neg (not_lt.mpr hx0), if_neg (not_lt.mpr (le_of_lt hxW)),
        if_neg (not_lt.mpr hy0), if_neg (not_lt.mpr (le_of_lt hyH))]
    · rw [if_neg h]
  refine ⟨hmain, ?_, ?_⟩
  · intro g ε hε hx
    have hW : (0 : ℚ) ≤ (g.width : ℚ) := Nat.cast_nonneg _
    rw [hmain g]
    show (if g.player.entity.pos.x < 0 then (g.width : ℚ)
        else if g.player.entity.pos.x > (g.width : ℚ) then 0
        else g.player.entity.pos.x) = 0
    rw [hx, if_neg (by linarith), if_pos (by linarith)]
  · intro g ε hε hx
    rw [hmain g]
    show (if g.player.entity.pos.x < 0 then (g.width : ℚ)
        else if g.player.entity.pos.x > (g.width : ℚ) then 0
        else g.player.entity.pos.x) = (g.width : ℚ)
    rw [hx, if_pos (by linarith)]

/-- Witness for C9: a position just past the right edge wraps to 0, one just
past the left edge wraps to the width. -/
theorem claim_C9_toroidal_wrap_witness :
    (Game.toroidal_space { sampleGame with player :=
      { sampleGame.player with entity :=
        { sampleGame.player.entity with pos := ⟨801, 5⟩ } } }).player.entity.pos.x
      = 0 ∧
    (Game.toroidal_space { sampleGame with player :=
      { sampleGame.player with entity :=
        { sampleGame.player.entity with pos := ⟨-1, 5⟩ } } }).player.entity.pos.x
      = (800 : ℚ) := by
  constructor
  · exact claim_C9_toroidal_wrap.2.1 _ 1 (by norm_num)
      (by norm_num [sampleGame, Game.init])
  · have h := claim_C9_toroidal_wrap.2.2
      ({ sampleGame with player :=
        { sampleGame.player with entity :=
          { sampleGame.player.entity with pos := ⟨-1, 5⟩ } } }) 1
      (by norm_num) (by norm_num)
    simpa [sampleGame, Game.init] using h

/-- **C5 (code-bug exhibit).** The `Engine` dataclass field defaults
`Slider(1.0, 0.5)` are evaluated once and shared: with two engines built by
`Engine()` (both are `engineDefaultObj`, holding the class-level references),
draining the first engine's fuel by 0.5 changes the value read through the
second engine's fuel reference from 1/2 to 0 — the gauges are aliased, not
single-owner. -/
theorem claim_C5_shared_default_sliders :
    engineFuelValue engineClassHeap engineDefaultObj = 1 / 2 ∧
    engineFuelValue
      (engineFuelChange engineClassHeap engineDefaultObj (-(1 / 2))).1
      engineDefaultObj = 0 ∧
    engineOxidizerValue
      (engineFuelChange engineClassHeap engineDefaultObj (-(1 / 2))).1
      engineDefaultObj = 1 / 2 := by
  refine ⟨rfl, ?_, ?_⟩
  · show (max (min ((1 : ℚ) / 2 + -(1 / 2)) 1) 0) = 0
    norm_num
  · rfl

/-- **C10.** The world is running iff the player is alive and the elapsed
time is strictly below `maxtime`; once not running, `update(dt)` is the
identity on the whole world state; a world built with `maxtime = 0` is not
running, and any `update(dt > 0)` leaves it unchanged and not running. -/
theorem claim_C10_termination :
    (∀ g : Game, g.is_running = true ↔
      (g.player.is_alive = true ∧
        (match g.maxtime with
         | none => True
         | some m => g.time < m))) ∧
    (∀ (fc : ℚ) (o : Oracle) (g : Game) (dt : ℚ),
      g.is_running = false → Game.update fc o g dt = g) ∧
    (∀ (W H : ℕ) (ct : ControlType) (acc0 : Vec2) (fc : ℚ) (o : Oracle)
      (dt : ℚ), 0 < dt →
      (Game.init W H (some 0) ct acc0).is_running = false ∧
      Game.update fc o (Game.init W H (some 0) ct acc0) dt =
        Game.init W H (some 0) ct acc0 ∧
      (Game.update fc o (Game.init W H (some 0) ct acc0) dt).is_running =
        false) := by
  have hnoop : ∀ (fc : ℚ) (o : Oracle) (g : Game) (dt : ℚ),
      g.is_running = false → Game.update fc o g dt = g := by
    intro fc o g dt h
    simp [Game.update, h]
  refine ⟨?_, hnoop, ?_⟩
  · intro g
    unfold Game.is_running
    cases hm : g.maxtime with
    | none => simp
    | some m => simp
  · intro W H ct acc0 fc o dt hdt
    have hrun : (Game.init W H (some 0) ct acc0).is_running = false := by
      simp [Game.is_running, Game.init]
    refine ⟨hrun, hnoop fc o _ dt hrun, ?_⟩
    rw [hnoop fc o _ dt hrun]
    exact hrun

lemma Game.toroidal_spawn (g : Game) :
    g.toroidal_space.spawn_booster_timer = g.spawn_booster_timer := by
  unfold Game.toroidal_space
  split <;> rfl

lemma Game.collisions_spawn (g : Game) :
    g.process_collisions.spawn_booster_timer = g.spawn_booster_timer :=
  rfl

lemma Game.maybe_ai_spawn (g : Game) (o : Oracle) :
    (g.maybe_ai o).spawn_booster_timer = g.spawn_booster_timer := by
  unfold Game.maybe_ai
  split <;> rfl

lemma Game.process_timers_spawn (o : Oracle) (g : Game) (dt : ℚ) :
    (Game.process_timers o g dt).spawn_booster_timer =
      Timer.reset (Timer.tick g.spawn_booster_timer dt) (some o.spawnPeriod) ∨
    (Game.process_timers o g dt).spawn_booster_timer =
      Timer.tick g.spawn_booster_timer dt := by
  unfold Game.process_timers
  by_cases h1 : (g.clean_dead_entities_timer.tick dt).running = true <;>
    by_cases h2 : (g.spawn_booster_timer.tick dt).running = true <;>
      simp [h1, h2]

lemma Game.update_spawn_max (fc : ℚ) (o : Oracle) (g : Game) (dt : ℚ) :
    (Game.update fc o g dt).spawn_booster_timer.max_time =
      g.spawn_booster_timer.max_time ∨
    (Game.update fc o g dt).spawn_booster_timer.max_time =
      some o.spawnPeriod := by
  unfold Game.update
  split
  · exact Or.inl rfl
  · have key : ∀ g4 : Game,
        g4.spawn_booster_timer = g.spawn_booster_timer →
        ((Game.process_timers o g4 dt).maybe_ai o).spawn_booster_timer.max_time
            = g.spawn_booster_timer.max_time ∨
        ((Game.process_timers o g4 dt).maybe_ai o).spawn_booster_timer.max_time
            = some o.spawnPeriod := by
      intro g4 h4
      rw [Game.maybe_ai_spawn]
      rcases Game.process_timers_spawn o g4 dt with h | h <;> rw [h, h4]
      · exact Or.inr rfl
      · exact Or.inl rfl
    exact key _ (by rw [Game.collisions_spawn, Game.toroidal_spawn])

lemma applyControl_spawn (c : Control) (g : Game) :
    (applyControl c g).spawn_booster_timer = g.spawn_booster_timer := by
  cases c <;> rfl

lemma Game.applyTransfer_entity (p : Player) (b : Booster) :
    (Game.applyTransfer p b).entity = p.entity := by
  unfold Game.applyTransfer
  split <;> rfl

lemma Game.collideLoop_player_entity (p : Player) (bs : List Booster) :
    (Game.collideLoop p bs).1.entity = p.entity := by
  induction bs generalizing p with
  | nil => rfl
  | cons b tl ih =>
      unfold Game.collideLoop
      split
      · exact (ih (Game.applyTransfer p b)).trans (Game.applyTransfer_entity p b)
      · exact ih p

lemma Game.collideLoop_kill (bs : List Booster) :
    ∀ (p : Player) (i : ℕ) (b : Booster), bs[i]? = some b →
    (b.is_alive && b.entity.collides_with p.entity) = true →
    ((Game.collideLoop p bs).2[i]?.map fun x => x.is_alive) = some false := by
  induction bs with
  | nil =>
      intro p i b hget
      simp at hget
  | cons hd tl ih =>
      intro p i b hget hcoll
      cases i with
      | zero =>
          rw [List.getElem?_cons_zero] at hget
          obtain rfl : hd = b := by injection hget
          unfold Game.collideLoop
          rw [if_pos hcoll]
          simp [Booster.is_alive, Entity.is_alive, Entity.kill]
      | succ n =>
          rw [List.getElem?_cons_succ] at hget
          unfold Game.collideLoop
          split
          · have hcoll2 : (b.is_alive &&
                b.entity.collides_with (Game.applyTransfer p hd).entity) = true := by
              rw [Game.applyTransfer_entity]
              exact hcoll
            simpa using ih (Game.applyTransfer p hd) n b hget hcoll2
          · simpa using ih p n b hget hcoll

lemma Game.collideLoop_noop (p : Player) (bs : List Booster) :
    (∀ b ∈ bs, (b.is_alive && b.entity.collides_with p.entity) = false) →
    Game.collideLoop p bs = (p, bs) := by
  induction bs with
  | nil => intro h; rfl
  | cons hd tl ih =>
      intro h
      unfold Game.collideLoop
      rw [if_neg (by simp [h hd (List.mem_cons_self hd tl)])]
      rw [ih (fun b hb => h b (List.mem_cons_of_mem hd hb))]

lemma Game.collideLoop_post (p : Player) (bs : List Booster) :
    ∀ b2 ∈ (Game.collideLoop p bs).2,
      (b2.is_alive && b2.entity.collides_with p.entity) = false := by
  induction bs generalizing p with
  | nil =>
      intro b2 hb
      simp [Game.collideLoop] at hb
  | cons hd tl ih =>
      intro b2 hb
      unfold Game.collideLoop at hb
      by_cases hc : (hd.is_alive && hd.entity.collides_with p.entity) = true
      · rw [if_pos hc] at hb
        simp only [List.mem_cons] at hb
        rcases hb with rfl | hb
        · simp [Booster.is_alive, Entity.is_alive, Entity.kill]
        · have h := ih (Game.applyTransfer p hd) b2 hb
          rwa [Game.applyTransfer_entity] at h
      · rw [if_neg hc] at hb
        simp only [List.mem_cons] at hb
        rcases hb with rfl | hb
        · simpa using hc
        · exact ih p b2 hb

lemma Game.process_collisions_fixed (g : Game) (P : Player)
    (B : List Booster) (h : Game.collideLoop P B = (P, B)) :
    Game.process_collisions { g with player := P, e_boosters := B } =
      { g with player := P, e_boosters := B } := by
  unfold Game.process_collisions
  dsimp only
  rw [h]

/-- **C4 counterexample.** A freshly constructed world — a reachable state —
has spawn-timer period 1.0, which is not in [2, 7]: the first spawn interval
is 1 second, not a random 2–7 seconds. -/
theorem claim_C4_counterexample :
    (Game.init 800 600 none ControlType.cursor
        ⟨1, 0⟩).spawn_booster_timer.max_time = some 1 ∧
    ¬((2 : ℚ) ≤ 1 ∧ (1 : ℚ) ≤ 7) := by
  constructor
  · rfl
  · intro h
    exact absurd h.1 (by norm_num)

/-- **C4 (amended).** In every reachable world state the spawn timer's
period is either the initial 1.0 second (until the first expiry) or a value
drawn in [2, 7] by a rearm; every rearm after an expiry uses a period in
[2, 7]. -/
theorem claim_C4_spawn_period :
    ∀ (fc : ℚ) (g : Game), Reachable fc g →
      g.spawn_booster_timer.max_time = some 1 ∨
      (∃ m : ℚ, g.spawn_booster_timer.max_time = some m ∧ 2 ≤ m ∧ m ≤ 7) := by
  intro fc g hg
  induction hg with
  | init W H mt ct acc0 => exact Or.inl rfl
  | step g o dt hr hvalid hdt ih =>
      rcases Game.update_spawn_max fc o g dt with h | h
      · rw [h]; exact ih
      · exact Or.inr ⟨o.spawnPeriod, h, hvalid.1, hvalid.2.1⟩
  | ctrl g c hr ih =>
      rw [applyControl_spawn]
      exact ih

/-- Witness for C4 (amended) at the initial reachable state. -/
theorem claim_C4_spawn_period_witness :
    (Game.init 800 600 none ControlType.cursor
        ⟨1, 0⟩).spawn_booster_timer.max_time = some 1 ∨
    (∃ m : ℚ, (Game.init 800 600 none ControlType.cursor
        ⟨1, 0⟩).spawn_booster_timer.max_time = some m ∧ 2 ≤ m ∧ m ≤ 7) :=
  claim_C4_spawn_period (9 / 10) _
    (Reachable.init 800 600 none ControlType.cursor ⟨1, 0⟩)

/-- Witness for C10 at a concrete world and tick. -/
theorem claim_C10_termination_witness :
    (Game.init 800 600 (some 0) ControlType.cursor ⟨1, 0⟩).is_running =
      false ∧
    Game.update (9 / 10) sampleOracle
        (Game.init 800 600 (some 0) ControlType.cursor ⟨1, 0⟩) 1 =
      Game.init 800 600 (some 0) ControlType.cursor ⟨1, 0⟩ :=
  ⟨(claim_C10_termination.2.2 800 600 ControlType.cursor ⟨1, 0⟩ (9 / 10)
      sampleOracle 1 (by norm_num)).1,
   (claim_C10_termination.2.2 800 600 ControlType.cursor ⟨1, 0⟩ (9 / 10)
      sampleOracle 1 (by norm_num)).2.1⟩

/-- **C1.** Collision resolution kills every live booster in collision range
of the player (its `is_alive` becomes false), and transfers its amount into
the gauge matching its type via `Slider.change` (`applyTransfer`), clamping
at the gauge's maximum; a booster transfers at most once: boosters that are
all dead transfer nothing, a second resolution pass changes nothing at all,
and a killed booster stays not-alive under later booster ticks. -/
theorem claim_C1_collision_transfer :
    (∀ (g : Game) (i : ℕ) (b : Booster), g.e_boosters[i]? = some b →
      (b.is_alive && b.entity.collides_with g.player.entity) = true →
      ((g.process_collisions).e_boosters[i]?.map fun x => x.is_alive) =
        some false) ∧
    (∀ (g : Game) (b : Booster), g.e_boosters = [b] →
      (b.is_alive && b.entity.collides_with g.player.entity) = true →
      g.process_collisions = { g with
        player := Game.applyTransfer g.player b
        e_boosters := [{ b with entity := b.entity.kill }] }) ∧
    (∀ g : Game, (∀ b ∈ g.e_boosters, b.is_alive = false) →
      g.process_collisions = g) ∧
    (∀ g : Game,
      g.process_collisions.process_collisions = g.process_collisions) ∧
    (∀ (fc dt : ℚ) (b : Booster), b.entity._alive = false →
      (Booster.update fc b dt).is_alive = false) := by
  refine ⟨?_, ?_, ?_, ?_, ?_⟩
  · intro g i b hget hcoll
    exact Game.collideLoop_kill g.e_boosters g.player i b hget hcoll
  · intro g b hlist hcoll
    unfold Game.process_collisions
    rw [hlist]
    unfold Game.collideLoop
    rw [if_pos hcoll]
    unfold Game.collideLoop
    rfl
  · intro g hall
    have h := Game.collideLoop_noop g.player g.e_boosters (fun b hb => by
      rw [hall b hb]
      rfl)
    unfold Game.process_collisions
    rw [h]
  · intro g
    have hnoop := Game.collideLoop_noop
      (Game.collideLoop g.player g.e_boosters).1
      (Game.collideLoop g.player g.e_boosters).2
      (by
        intro b2 hb
        rw [Game.collideLoop_player_entity]
        exact Game.collideLoop_post g.player g.e_boosters b2 hb)
    exact Game.process_collisions_fixed g
      (Game.collideLoop g.player g.e_boosters).1
      (Game.collideLoop g.player g.e_boosters).2 hnoop
  · intro fc dt b hdead
    simp [Booster.update, Booster.is_alive, Entity.update_base,
      Entity.is_alive, hdead]

/-- Witness for C1: the spec's own scenario — a FUEL booster of amount 0.3
on a player whose fuel gauge is at 0.8/1.0; the booster dies, the collision
resolution matches the transfer-and-kill equation, and the fuel gauge
clamps at 1.0. -/
theorem claim_C1_collision_transfer_witness :
    ((sampleCollisionGame.process_collisions).e_boosters[0]?.map
      fun x => x.is_alive) = some false ∧
    sampleCollisionGame.process_collisions = { sampleCollisionGame with
      player := Game.applyTransfer sampleCollisionGame.player
        (Booster.init ⟨400, 300⟩ BoosterType.FUEL (3 / 10))
      e_boosters := [{ Booster.init ⟨400, 300⟩ BoosterType.FUEL (3 / 10) with
        entity := (Booster.init ⟨400, 300⟩ BoosterType.FUEL
          (3 / 10)).entity.kill }] } ∧
    (sampleCollisionGame.process_collisions).player.engine._fuel.current_value
      = 1 := by
  have hcoll : ((Booster.init ⟨400, 300⟩ BoosterType.FUEL (3 / 10)).is_alive &&
      (Booster.init ⟨400, 300⟩ BoosterType.FUEL (3 / 10)).entity.collides_with
        sampleCollisionGame.player.entity) = true := by
    norm_num [Booster.init, Booster.is_alive, Entity.init, Entity.is_alive,
      Entity.collides_with, Vec2.distance_squared_to, Timer.init,
      Timer.running, sampleCollisionGame, Vec2.zero]
  refine ⟨claim_C1_collision_transfer.1 sampleCollisionGame 0 _ rfl hcoll,
    claim_C1_collision_transfer.2.1 sampleCollisionGame _ rfl hcoll, ?_⟩
  rw [claim_C1_collision_transfer.2.1 sampleCollisionGame _ rfl hcoll]
  show ((Slider.init 1 (some (8 / 10))).change (3 / 10)).1.current_value = 1
  rw [Slider.change_fst_current]
  norm_num [Slider.init]

end SpaceGame
